import Mathlib

/-!
Verification of the Detection & Fraud-Signal Engine of the
screen-fraud-detector repository.  The Python sources under
src/backend/model/ are shallowly embedded: scores and confidences are
rationals, exceptions are Except values, and the random draw of the
all-clear path is an explicit parameter.
-/

namespace ScreenFraud

/-- Uniform output contract of every signal extractor
(simple_detector.py: the dicts with keys suspicious/score/reason). -/
structure Signal where
  suspicious : Bool
  score : ℚ
  reason : String
deriving DecidableEq, Repr

/-- A tampered-region box (simple_detector._find_tampered_regions). -/
structure TamperedRegion where
  x : Nat
  y : Nat
  width : Nat
  height : Nat
  confidence : ℚ
deriving DecidableEq, Repr

/-- Result of SimpleImageDetector.detect_tampering (the fields the
claims are about). -/
structure BasicResult where
  is_authentic : Bool
  confidence : ℚ
  details : String
  tampered_regions : List TamperedRegion
deriving DecidableEq, Repr

/-- Python "; ".join on a list of strings. -/
def joinSemi : List String → String
  | [] => ""
  | [a] => a
  | a :: b :: rest => a ++ "; " ++ joinSemi (b :: rest)

/-- simple_detector._find_tampered_regions: a single illustrative box
whenever any of the three pixel signals is suspicious, with confidence
the maximum of the three scores. -/
def find_tampered_regions (h w : Nat) (jpeg noise edge : Signal) :
    List TamperedRegion :=
  if jpeg.suspicious || noise.suspicious || edge.suspicious then
    [{ x := w / 4, y := h / 4, width := w / 3, height := h / 3,
       confidence := max jpeg.score (max noise.score edge.score) }]
  else
    []

/-- SimpleImageDetector.detect_tampering, the weighted fusion of the
four signals.  `rand` is the value drawn by np.random.uniform(0.75,0.90)
in the all-clear branch, passed in explicitly. -/
def detect_tampering (h w : Nat) (jpeg noise edge metadata : Signal)
    (rand : ℚ) : BasicResult :=
  let total_score : ℚ :=
    (if jpeg.suspicious then jpeg.score * (3 / 10) else 0)
    + (if noise.suspicious then noise.score * (3 / 10) else 0)
    + (if edge.suspicious then edge.score * (1 / 4) else 0)
    + (if metadata.suspicious then metadata.score * (3 / 20) else 0)
  let max_score : ℚ := 3 / 10 + 3 / 10 + 1 / 4 + 3 / 20
  let details : List String :=
    (if jpeg.suspicious then ["JPEG compression: " ++ jpeg.reason] else [])
    ++ (if noise.suspicious then ["Noise patterns: " ++ noise.reason] else [])
    ++ (if edge.suspicious then ["Edge analysis: " ++ edge.reason] else [])
    ++ (if metadata.suspicious then ["Metadata: " ++ metadata.reason] else [])
  let confidence : ℚ :=
    if 0 < max_score then min (total_score / max_score) (19 / 20) else 1 / 10
  let is_auth : Bool := decide (confidence < 2 / 5)
  if details.isEmpty then
    { is_authentic := true, confidence := rand,
      details := "No significant tampering indicators detected",
      tampered_regions := find_tampered_regions h w jpeg noise edge }
  else
    { is_authentic := is_auth, confidence := confidence,
      details := joinSemi details,
      tampered_regions := find_tampered_regions h w jpeg noise edge }

/-! ### Metadata analysis (simple_detector._analyze_metadata) -/

/-- pat is a prefix of s (over character lists). -/
def seqStarts : List Char → List Char → Bool
  | [], _ => true
  | _ :: _, [] => false
  | a :: as, b :: bs => a == b && seqStarts as bs

/-- pat occurs contiguously inside s (Python substring test `in`). -/
def hasSeq : List Char → List Char → Bool
  | [], pat => seqStarts pat []
  | c :: t, pat => seqStarts pat (c :: t) || hasSeq t pat

/-- Python `editor.lower() in str(value).lower()`. -/
def strContainsLower (value editor : String) : Bool :=
  hasSeq (value.data.map Char.toLower) (editor.data.map Char.toLower)

def software_tags : List String :=
  ["Software", "ProcessingSoftware", "PhotoshopSettings"]

def editing_software : List String :=
  ["Photoshop", "GIMP", "Paint.NET", "Canva"]

def timestamp_tags : List String :=
  ["DateTime", "DateTimeOriginal", "DateTimeDigitized"]

/-- First editor of the fixed list occurring (case-insensitively) in the
tag value; the inner loop of the software-tag scan, with break. -/
def softwareHit (value : String) : Option String :=
  editing_software.find? (fun ed => strContainsLower value ed)

/-- Values of the timestamp tags that are present in the EXIF map, in
tag order. -/
def presentTimestamps (exif : List (String × String)) : List String :=
  timestamp_tags.filterMap (fun tag => exif.lookup tag)

/-- Accumulated (indicators, score) after the missing-EXIF check and the
editing-software scan, before the timestamp check. -/
def metaPre (exif : List (String × String)) : List String × ℚ :=
  let base : List String × ℚ :=
    if exif.isEmpty then (["No EXIF metadata"], 3 / 10) else ([], 0)
  software_tags.foldl (fun acc tag =>
    match exif.lookup tag with
    | none => acc
    | some v =>
      match softwareHit v with
      | none => acc
      | some ed => (acc.1 ++ ["Edited with " ++ ed], acc.2 + 2 / 5)) base

/-- Accumulated (indicators, score) including the timestamp check. -/
def metaAccum (exif : List (String × String)) : List String × ℚ :=
  let pre := metaPre exif
  if 1 < (presentTimestamps exif).dedup.length then
    (pre.1 ++ ["Inconsistent timestamps"], pre.2 + 1 / 5)
  else pre

/-- SimpleImageDetector._analyze_metadata on the extracted EXIF map. -/
def analyze_metadata (exif : List (String × String)) : Signal :=
  let acc := metaAccum exif
  if acc.1.isEmpty then
    { suspicious := false, score := 1 / 20, reason := "Normal metadata" }
  else
    { suspicious := true, score := min acc.2 1, reason := joinSemi acc.1 }

/-! ### Transaction analyzer (transaction_analyzer.py) -/

/-- A fraud indicator dict: type / severity / description. -/
structure FraudIndicator where
  type : String
  severity : String
  description : String
deriving DecidableEq, Repr

/-- Outputs of the component analyzers that
analyze_transaction_screenshot assembles: metadata signal, text
analysis, visual-pattern analysis (copy-paste region descriptions and
resolution-inconsistency items as (severity, description)), and the
reverse-search flag. -/
structure TxInputs where
  metadata_suspicious : Bool
  metadata_reason : String
  text_suspicious : Bool
  text_indicators : List FraudIndicator
  copy_paste_descs : List String
  resolution_items : List (String × String)
  reverse_found : Bool
deriving DecidableEq, Repr

/-- The fraud-indicator list assembled from metadata, text, copy-paste
and resolution analysis — the state of `fraud_indicators` at the point
where recommendations are generated, before the reverse-search
indicator is appended. -/
def txPreIndicators (t : TxInputs) : List FraudIndicator :=
  (if t.metadata_suspicious then
     [{ type := "metadata", severity := "medium",
        description := t.metadata_reason }]
   else [])
  ++ (if t.text_suspicious then t.text_indicators else [])
  ++ t.copy_paste_descs.map (fun d =>
       { type := "copy_paste", severity := "high",
         description := "Potential copy-paste detected: " ++ d })
  ++ t.resolution_items.map (fun p =>
       { type := "resolution", severity := p.1, description := p.2 })

/-- The recommendation block generated from the pre-reverse-search
indicator list. -/
def txPreRecommendations (t : TxInputs) : List String :=
  let ind := txPreIndicators t
  if ind.length = 0 then
    ["Screenshot appears authentic with no major fraud indicators detected"]
  else
    ["⚠️ " ++ toString ind.length ++ " potential fraud indicators detected"]
    ++ (if ind.any (fun i => i.severity == "high") then
          ["🚨 HIGH RISK: Manual verification strongly recommended"]
        else [])
    ++ ["🔍 Verify transaction details through official banking channels",
        "📱 Cross-check with actual bank/payment app statements"]

/-- The final fraud-indicator list, with the reverse-search indicator
appended when matches were found. -/
def txIndicators (t : TxInputs) : List FraudIndicator :=
  txPreIndicators t
  ++ (if t.reverse_found then
        [{ type := "reverse_search", severity := "high",
           description := "Similar images found online - possible template reuse" }]
      else [])

/-- The final recommendation list, with the reverse-search line appended
when matches were found. -/
def txRecommendations (t : TxInputs) : List String :=
  txPreRecommendations t
  ++ (if t.reverse_found then
        ["🌐 Similar images found online - verify authenticity carefully"]
      else [])

/-- TransactionAnalyzer._calculate_overall_risk. -/
def calculate_overall_risk (fraud_indicators : List FraudIndicator) : String :=
  if fraud_indicators.isEmpty then "low"
  else
    let high_risk_count :=
      (fraud_indicators.filter (fun i => i.severity == "high")).length
    let medium_risk_count :=
      (fraud_indicators.filter (fun i => i.severity == "medium")).length
    if 2 ≤ high_risk_count then "very_high"
    else if 1 ≤ high_risk_count then "high"
    else if 3 ≤ medium_risk_count then "high"
    else if 1 ≤ medium_risk_count then "medium"
    else "low"

/-- The fields of the transaction-analysis payload the claims are about
(`error` is the optional error key of the degraded payload). -/
structure TxResult where
  error : Option String
  fraud_indicators : List FraudIndicator
  recommendations : List String
  overall_risk : String
deriving DecidableEq, Repr

/-- TransactionAnalyzer.analyze_transaction_screenshot: the body of the
chain either produces the component outputs or raises (Except.error);
the boundary handler converts a raised exception into the degraded
payload. -/
def analyze_transaction_screenshot (inp : Except String TxInputs) : TxResult :=
  match inp with
  | .ok t =>
    { error := none,
      fraud_indicators := txIndicators t,
      recommendations := txRecommendations t,
      overall_risk := calculate_overall_risk (txIndicators t) }
  | .error e =>
    { error := some ("Analysis failed: " ++ e),
      fraud_indicators := [],
      recommendations := ["Analysis failed - manual verification required"],
      overall_risk := "unknown" }

/-! ### Orchestrator reconciliation (detector.detect_tampering) -/

/-- The fields of the merged result the reconciliation step touches. -/
structure FinalResult where
  is_authentic : Bool
  confidence : ℚ
  details : String
deriving DecidableEq, Repr

/-- The confidence-reconciliation step of
ImageAuthenticityDetector.detect_tampering in transaction mode. -/
def orchestrate_reconcile (basic : FinalResult)
    (fraud_indicators : List FraudIndicator) : FinalResult :=
  let fraud_count := fraud_indicators.length
  let high_risk_count :=
    (fraud_indicators.filter (fun i => i.severity == "high")).length
  if 0 < high_risk_count then
    { is_authentic := false,
      confidence := min (basic.confidence * (3 / 10)) (1 / 2),
      details := "HIGH RISK: " ++ toString high_risk_count
        ++ " critical fraud indicators detected" }
  else if 2 < fraud_count then
    { basic with
      confidence := basic.confidence * (3 / 5),
      details := "MODERATE RISK: " ++ toString fraud_count
        ++ " suspicious patterns found" }
  else basic

/-! ### Copy-paste block search (transaction_analyzer._analyze_visual_patterns) -/

/-- Python range(0, stop, step) over naturals, step > 0. -/
def pyRange (stop step : Nat) : List Nat :=
  (List.range ((stop + step - 1) / step)).map (fun k => k * step)

/-- Top-left corners (i, j) of the tiled 32×32 blocks, 16-pixel stride,
in generation order (row major). -/
def blockGrid (h w : Nat) : List (Nat × Nat) :=
  (pyRange (h - 32) 16).flatMap (fun i =>
    (pyRange (w - 32) 16).map (fun j => (i, j)))

/-- All ordered-index pairs of a list, in the order the double loop
`for idx, b1: for b2 in blocks[idx+1:]` visits them. -/
def listPairs {α : Type} : List α → List (α × α)
  | [] => []
  | x :: xs => xs.map (fun y => (x, y)) ++ listPairs xs

/-- |a - b| over naturals. -/
def natDist (a b : Nat) : Nat := (a - b) + (b - a)

/-- A copy-paste region record. -/
structure CopyPasteRegion where
  x1 : Nat
  y1 : Nat
  x2 : Nat
  y2 : Nat
  width : Nat
  height : Nat
  confidence : ℚ
  description : String
deriving DecidableEq, Repr

/-- The record emitted for a correlated pair of blocks. -/
def cpRecord (p1 p2 : Nat × Nat) (c : ℚ) : CopyPasteRegion :=
  { x1 := p1.2, y1 := p1.1, x2 := p2.2, y2 := p2.1,
    width := 32, height := 32, confidence := c,
    description := "Highly similar regions at (" ++ toString p1.2 ++ ","
      ++ toString p1.1 ++ ") and (" ++ toString p2.2 ++ ","
      ++ toString p2.1 ++ ")" }

/-- The copy-paste search of _analyze_visual_patterns.  `corr` is the
numeric kernel (cv2.matchTemplate TM_CCOEFF_NORMED on the two 32×32
blocks at the given corners), abstracted as an oracle on corner pairs. -/
def copy_paste_regions (corr : Nat × Nat → Nat × Nat → ℚ) (h w : Nat) :
    List CopyPasteRegion :=
  (listPairs (blockGrid h w)).filterMap (fun pr =>
    if natDist pr.1.1 pr.2.1 < 32 ∧ natDist pr.1.2 pr.2.2 < 32 then none
    else if 9 / 10 < corr pr.1 pr.2 then some (cpRecord pr.1 pr.2 (corr pr.1 pr.2))
    else none)

/-- Modelled from the spec, for comparison: the pairing rule as §4.5
states it — a pair is compared only when its corners differ by at least
32 pixels in both axes. -/
def copy_paste_regions_specRule (corr : Nat × Nat → Nat × Nat → ℚ)
    (h w : Nat) : List CopyPasteRegion :=
  (listPairs (blockGrid h w)).filterMap (fun pr =>
    if 32 ≤ natDist pr.1.1 pr.2.1 ∧ 32 ≤ natDist pr.1.2 pr.2.2 then
      (if 9 / 10 < corr pr.1 pr.2 then some (cpRecord pr.1 pr.2 (corr pr.1 pr.2))
       else none)
    else none)

/-- A correlation oracle reporting 0.95 for every pair. -/
def constCorr : Nat × Nat → Nat × Nat → ℚ := fun _ _ => 19 / 20

/-! ### Theorems -/

/-- C1 (counterexample): with the three pixel signals suspicious at
scores 0.7 / 0.1 / 0.1 and a non-suspicious metadata signal, the Basic
Fusion Scorer returns confidence 53/200 = 0.265 — not ≈ 0.367 — and,
since 0.265 < 0.4, is_authentic = true, not false as the claim states. -/
theorem c1_counterexample :
    (detect_tampering 120 80 ⟨true, 7 / 10, "a"⟩ ⟨true, 1 / 10, "b"⟩
        ⟨true, 1 / 10, "c"⟩ ⟨false, 3 / 20, "d"⟩ (4 / 5)).is_authentic = true
    ∧ (detect_tampering 120 80 ⟨true, 7 / 10, "a"⟩ ⟨true, 1 / 10, "b"⟩
        ⟨true, 1 / 10, "c"⟩ ⟨false, 3 / 20, "d"⟩ (4 / 5)).confidence = 53 / 200 := by
  norm_num [detect_tampering, find_tampered_regions, joinSemi]

/-- C1 (amended): for any dimensions, reasons, metadata baseline score
and random draw, an input whose three pixel signals are all suspicious
with scores 0.7 / 0.1 / 0.1 and whose metadata signal is non-suspicious
gets confidence (0.7×0.3 + 0.1×0.3 + 0.1×0.25)/(0.3+0.3+0.25+0.15)
= 0.265, which is below 0.4, hence is_authentic = true. -/
theorem c1_amended (h w : Nat) (r1 r2 r3 r4 : String) (ms rand : ℚ) :
    (detect_tampering h w ⟨true, 7 / 10, r1⟩ ⟨true, 1 / 10, r2⟩
        ⟨true, 1 / 10, r3⟩ ⟨false, ms, r4⟩ rand).confidence = 53 / 200
    ∧ (53 : ℚ) / 200 < 2 / 5
    ∧ (detect_tampering h w ⟨true, 7 / 10, r1⟩ ⟨true, 1 / 10, r2⟩
        ⟨true, 1 / 10, r3⟩ ⟨false, ms, r4⟩ rand).is_authentic = true := by
  norm_num [detect_tampering, find_tampered_regions, joinSemi]

/-- C5: when none of the four signals is suspicious, the Basic Fusion
Scorer discards the computed confidence and returns is_authentic = true,
confidence equal to the uniform draw from [0.75, 0.90), and the single
no-significant-indicators message as details. -/
theorem c5_all_clear (h w : Nat) (j n e m : Signal) (rand : ℚ)
    (hj : j.suspicious = false) (hn : n.suspicious = false)
    (he : e.suspicious = false) (hm : m.suspicious = false)
    (hlo : 3 / 4 ≤ rand) (hhi : rand < 9 / 10) :
    (detect_tampering h w j n e m rand).is_authentic = true
    ∧ 3 / 4 ≤ (detect_tampering h w j n e m rand).confidence
    ∧ (detect_tampering h w j n e m rand).confidence ≤ 9 / 10
    ∧ (detect_tampering h w j n e m rand).details
        = "No significant tampering indicators detected" := by
  simp [detect_tampering, hj, hn, he, hm]
  exact ⟨hlo, le_of_lt hhi⟩

/-- C5 (witness): the all-clear theorem at a concrete input. -/
theorem c5_all_clear_witness :
    (Signal.mk false 0 "a").suspicious = false
    ∧ (Signal.mk false 0 "b").suspicious = false
    ∧ (Signal.mk false 0 "c").suspicious = false
    ∧ (Signal.mk false (1 / 20) "d").suspicious = false
    ∧ (3 : ℚ) / 4 ≤ 4 / 5 ∧ (4 : ℚ) / 5 < 9 / 10
    ∧ ((detect_tampering 10 10 ⟨false, 0, "a"⟩ ⟨false, 0, "b"⟩
          ⟨false, 0, "c"⟩ ⟨false, 1 / 20, "d"⟩ (4 / 5)).is_authentic = true
      ∧ 3 / 4 ≤ (detect_tampering 10 10 ⟨false, 0, "a"⟩ ⟨false, 0, "b"⟩
          ⟨false, 0, "c"⟩ ⟨false, 1 / 20, "d"⟩ (4 / 5)).confidence
      ∧ (detect_tampering 10 10 ⟨false, 0, "a"⟩ ⟨false, 0, "b"⟩
          ⟨false, 0, "c"⟩ ⟨false, 1 / 20, "d"⟩ (4 / 5)).confidence ≤ 9 / 10
      ∧ (detect_tampering 10 10 ⟨false, 0, "a"⟩ ⟨false, 0, "b"⟩
          ⟨false, 0, "c"⟩ ⟨false, 1 / 20, "d"⟩ (4 / 5)).details
          = "No significant tampering indicators detected") :=
  ⟨rfl, rfl, rfl, rfl, by norm_num, by norm_num,
    c5_all_clear 10 10 _ _ _ _ _ rfl rfl rfl rfl (by norm_num) (by norm_num)⟩

/-- The tampered-regions field of the fusion result is the output of
find_tampered_regions in both branches. -/
theorem detect_tampering_regions (h w : Nat) (j n e m : Signal) (rand : ℚ) :
    (detect_tampering h w j n e m rand).tampered_regions
      = find_tampered_regions h w j n e := by
  cases hj : j.suspicious <;> cases hn : n.suspicious <;>
    cases he : e.suspicious <;> cases hm : m.suspicious <;>
    simp [detect_tampering, find_tampered_regions, hj, hn, he, hm]

/-- C10: the basic result carries a tampered-regions entry iff one of
the three pixel signals is suspicious, and then it is exactly the single
box (w/4, h/4, w/3, h/3) — which lies within the image bounds — whose
confidence is the maximum of the three pixel-signal scores. -/
theorem c10_tampered_regions (h w : Nat) (j n e m : Signal) (rand : ℚ) :
    ((detect_tampering h w j n e m rand).tampered_regions ≠ []
      ↔ (j.suspicious || n.suspicious || e.suspicious) = true)
    ∧ ((j.suspicious || n.suspicious || e.suspicious) = true →
        (detect_tampering h w j n e m rand).tampered_regions
          = [⟨w / 4, h / 4, w / 3, h / 3, max j.score (max n.score e.score)⟩]
        ∧ w / 4 + w / 3 ≤ w ∧ h / 4 + h / 3 ≤ h) := by
  rw [detect_tampering_regions]
  unfold find_tampered_regions
  constructor
  · by_cases hs : (j.suspicious || n.suspicious || e.suspicious) = true
    · simp [hs]
    · simp [hs]
  · intro hs
    rw [if_pos hs]
    refine ⟨rfl, ?_, ?_⟩ <;> omega

/-- C10 (witness): the tampered-regions characterization at a concrete
input with a suspicious JPEG signal. -/
theorem c10_tampered_regions_witness :
    ((true || false || false) = true)
    ∧ (detect_tampering 100 80 ⟨true, 1 / 2, "x"⟩ ⟨false, 0, "y"⟩
        ⟨false, 0, "z"⟩ ⟨false, 0, "u"⟩ 0).tampered_regions
        = [⟨80 / 4, 100 / 4, 80 / 3, 100 / 3, max (1 / 2) (max 0 0)⟩]
    ∧ 80 / 4 + 80 / 3 ≤ 80 ∧ 100 / 4 + 100 / 3 ≤ 100 :=
  ⟨rfl, (c10_tampered_regions 100 80 ⟨true, 1 / 2, "x"⟩ ⟨false, 0, "y"⟩
        ⟨false, 0, "z"⟩ ⟨false, 0, "u"⟩ 0).2 rfl⟩

/-- C7: when the transaction-analysis chain raises, the boundary handler
returns — rather than propagating the exception — the degraded payload:
an error message, no fraud indicators, the single
manual-verification-required recommendation, and overall_risk
"unknown". -/
theorem c7_degraded_payload (e : String) :
    analyze_transaction_screenshot (Except.error e) =
      { error := some ("Analysis failed: " ++ e),
        fraud_indicators := [],
        recommendations := ["Analysis failed - manual verification required"],
        overall_risk := "unknown" } := rfl

/-- C8: the orchestrator's confidence reconciliation never increases
confidence when the basic confidence lies in [0, 1]. -/
theorem c8_confidence_monotone (r : FinalResult) (ind : List FraudIndicator)
    (h0 : 0 ≤ r.confidence) (_h1 : r.confidence ≤ 1) :
    (orchestrate_reconcile r ind).confidence ≤ r.confidence := by
  unfold orchestrate_reconcile
  dsimp only
  split
  · exact le_trans (min_le_left _ _) (by nlinarith)
  · split
    · dsimp only
      nlinarith
    · exact le_refl _

/-- C8 (witness): the reconciliation at a concrete basic result. -/
theorem c8_confidence_monotone_witness :
    (0 : ℚ) ≤ 1 / 2 ∧ (1 : ℚ) / 2 ≤ 1
    ∧ (orchestrate_reconcile ⟨true, 1 / 2, "ok"⟩ []).confidence ≤ 1 / 2 :=
  ⟨by norm_num, by norm_num,
    c8_confidence_monotone ⟨true, 1 / 2, "ok"⟩ [] (by norm_num) (by norm_num)⟩

/-- C2: in transaction mode the orchestrator reconciles the basic
result against the fraud indicators: any high-severity indicator forces
confidence min(c × 0.3, 0.5), is_authentic = false and a HIGH RISK
details line; else more than two indicators give confidence c × 0.6 and
a MODERATE RISK details line; else the basic result is unchanged.  With
basic confidence 0.8 and exactly one high indicator, the final
confidence is 0.24 and is_authentic = false. -/
theorem c2_reconciliation :
    (∀ (r : FinalResult) (ind : List FraudIndicator),
      orchestrate_reconcile r ind =
        if ∃ i ∈ ind, i.severity = "high" then
          { is_authentic := false,
            confidence := min (r.confidence * (3 / 10)) (1 / 2),
            details := "HIGH RISK: "
              ++ toString ((ind.filter (fun i => i.severity == "high")).length)
              ++ " critical fraud indicators detected" }
        else if 2 < ind.length then
          { r with
            confidence := r.confidence * (3 / 5),
            details := "MODERATE RISK: " ++ toString ind.length
              ++ " suspicious patterns found" }
        else r)
    ∧ (orchestrate_reconcile ⟨true, 4 / 5, "ok"⟩
        [⟨"copy_paste", "high", "d"⟩]).confidence = 6 / 25
    ∧ (orchestrate_reconcile ⟨true, 4 / 5, "ok"⟩
        [⟨"copy_paste", "high", "d"⟩]).is_authentic = false := by
  refine ⟨?_, ?_, ?_⟩
  · intro r ind
    have key : (0 < (ind.filter (fun i => i.severity == "high")).length)
        ↔ (∃ i ∈ ind, i.severity = "high") := by
      simp [List.length_pos_iff_exists_mem, List.mem_filter]
    unfold orchestrate_reconcile
    dsimp only
    by_cases hex : ∃ i ∈ ind, i.severity = "high"
    · rw [if_pos (key.mpr hex), if_pos hex]
    · rw [if_neg (fun hc => hex (key.mp hc)), if_neg hex]
  · norm_num [orchestrate_reconcile]
  · norm_num [orchestrate_reconcile]

/-- Indicator with the given severity, for concrete instances. -/
def mkInd (s : String) : FraudIndicator :=
  { type := "t", severity := s, description := "d" }

/-- C4: the Risk Aggregator returns very_high when at least two high
indicators are present; else high when a high indicator or at least
three medium indicators are present; else medium when a medium
indicator is present; else low — with the claim's five concrete
instances. -/
theorem c4_overall_risk :
    (∀ ind : List FraudIndicator,
      calculate_overall_risk ind =
        (if 2 ≤ (ind.filter (fun i => i.severity == "high")).length then
          "very_high"
        else if 1 ≤ (ind.filter (fun i => i.severity == "high")).length
            ∨ 3 ≤ (ind.filter (fun i => i.severity == "medium")).length then
          "high"
        else if 1 ≤ (ind.filter (fun i => i.severity == "medium")).length then
          "medium"
        else "low"))
    ∧ calculate_overall_risk [mkInd "high", mkInd "high"] = "very_high"
    ∧ calculate_overall_risk [mkInd "high"] = "high"
    ∧ calculate_overall_risk [mkInd "medium", mkInd "medium", mkInd "medium"]
        = "high"
    ∧ calculate_overall_risk [mkInd "medium"] = "medium"
    ∧ calculate_overall_risk [] = "low" := by
  refine ⟨?_, by decide, by decide, by decide, by decide, by decide⟩
  intro ind
  unfold calculate_overall_risk
  by_cases hemp : ind.isEmpty
  · rw [List.isEmpty_iff] at hemp
    subst hemp
    simp
  · rw [if_neg (by simpa using hemp)]
    dsimp only
    split_ifs <;> first | rfl | omega

/-- C6 (counterexample): with no metadata / text / visual indicators but
a reverse-search match, the final indicator list holds exactly the
high-severity reverse-search indicator, yet the recommendations contain
the no-major-indicators line (and no count or escalation line) — so the
recommendations are not generated over the full indicator list. -/
theorem c6_counterexample :
    txIndicators ⟨false, "", false, [], [], [], true⟩
      = [{ type := "reverse_search", severity := "high",
           description := "Similar images found online - possible template reuse" }]
    ∧ txRecommendations ⟨false, "", false, [], [], [], true⟩
      = ["Screenshot appears authentic with no major fraud indicators detected",
         "🌐 Similar images found online - verify authenticity carefully"] := by
  decide

/-- C6 (amended): the recommendations are generated over the indicator
list collected before the reverse-search indicator is appended: the
no-major-indicators line exactly when that list is empty, else a line
counting those indicators, an escalation line when any of them is
high-severity, and the two fixed verification-advice lines; the extra
reverse-search line and the reverse-search indicator itself are
appended afterwards when matches were found. -/
theorem c6_recommendations (t : TxInputs) :
    txRecommendations t =
      (if txPreIndicators t = [] then
        ["Screenshot appears authentic with no major fraud indicators detected"]
      else
        ("⚠️ " ++ toString (txPreIndicators t).length
            ++ " potential fraud indicators detected")
          :: ((if ∃ i ∈ txPreIndicators t, i.severity = "high" then
                ["🚨 HIGH RISK: Manual verification strongly recommended"]
              else [])
            ++ ["🔍 Verify transaction details through official banking channels",
                "📱 Cross-check with actual bank/payment app statements"]))
      ++ (if t.reverse_found then
            ["🌐 Similar images found online - verify authenticity carefully"]
          else [])
    ∧ txIndicators t = txPreIndicators t
      ++ (if t.reverse_found then
            [{ type := "reverse_search", severity := "high",
               description := "Similar images found online - possible template reuse" }]
          else []) := by
  refine ⟨?_, rfl⟩
  unfold txRecommendations txPreRecommendations
  congr 1
  by_cases hemp : txPreIndicators t = []
  · simp [hemp]
  · rw [if_neg (by simpa [List.length_eq_zero] using hemp), if_neg hemp]
    by_cases hhi : ∃ i ∈ txPreIndicators t, i.severity = "high"
    · rw [if_pos hhi, if_pos (by simpa [List.any_eq_true] using hhi)]
      simp
    · rw [if_neg hhi, if_neg (by simpa [List.any_eq_true] using hhi)]
      simp

/-- C3 (counterexample): on a 33×81 image (blocks at (0,0), (0,16),
(0,32), (0,48)) with a correlation oracle reporting 0.95 everywhere, the
code emits three copy-paste records — from pairs whose corners differ by
≥32 pixels in the x axis only — while under the claim's pairing rule
(≥32 pixels in both axes required) no pair is compared at all. -/
theorem c3_counterexample :
    (copy_paste_regions constCorr 33 81).length = 3
    ∧ copy_paste_regions_specRule constCorr 33 81 = [] := by
  have hgrid : listPairs (blockGrid 33 81) =
      [((0, 0), (0, 16)), ((0, 0), (0, 32)), ((0, 0), (0, 48)),
       ((0, 16), (0, 32)), ((0, 16), (0, 48)), ((0, 32), (0, 48))] := rfl
  have hB : ∀ p1 p2 : Nat × Nat,
      (if 9 / 10 < constCorr p1 p2 then
        some (cpRecord p1 p2 (constCorr p1 p2)) else none)
        = some (cpRecord p1 p2 (19 / 20)) := by
    intro p1 p2
    rw [if_pos (by norm_num [constCorr])]
    rfl
  constructor
  · unfold copy_paste_regions
    rw [hgrid]
    simp only [List.filterMap_cons, List.filterMap_nil]
    norm_num [natDist, hB]
  · unfold copy_paste_regions_specRule
    rw [hgrid]
    simp only [List.filterMap_cons, List.filterMap_nil]
    norm_num [natDist]

/-- C3 (amended): in the copy-paste search over the 32×32 blocks tiled
at 16-pixel stride, an unordered pair of blocks is compared — and its
record emitted exactly when the correlation exceeds 0.9 — whenever the
top-left corners differ by at least 32 pixels in AT LEAST ONE axis;
only pairs differing by less than 32 pixels in both axes are skipped. -/
theorem c3_pairing (corr : Nat × Nat → Nat × Nat → ℚ) (h w : Nat) :
    copy_paste_regions corr h w =
      (listPairs (blockGrid h w)).filterMap (fun pr =>
        if 32 ≤ natDist pr.1.1 pr.2.1 ∨ 32 ≤ natDist pr.1.2 pr.2.2 then
          (if 9 / 10 < corr pr.1 pr.2 then
            some (cpRecord pr.1 pr.2 (corr pr.1 pr.2)) else none)
        else none) := by
  unfold copy_paste_regions
  apply List.filterMap_congr
  intro pr _
  by_cases h1 : natDist pr.1.1 pr.2.1 < 32
  · by_cases h2 : natDist pr.1.2 pr.2.2 < 32
    · rw [if_pos ⟨h1, h2⟩, if_neg (by omega)]
    · have hor : 32 ≤ natDist pr.1.1 pr.2.1 ∨ 32 ≤ natDist pr.1.2 pr.2.2 := by
        omega
      rw [if_neg (by tauto), if_pos hor]
  · have hor : 32 ≤ natDist pr.1.1 pr.2.1 ∨ 32 ≤ natDist pr.1.2 pr.2.2 := by
      omega
    rw [if_neg (by tauto), if_pos hor]

/-- A list is a prefix of itself extended by anything. -/
theorem seqStarts_append (p t : List Char) : seqStarts p (p ++ t) = true := by
  induction p with
  | nil => rfl
  | cons a as ih => simp [seqStarts, ih]

/-- A match inside the right part of an append is a match in the whole. -/
theorem hasSeq_append_right (a b p : List Char) (hb : hasSeq b p = true) :
    hasSeq (a ++ b) p = true := by
  induction a with
  | nil => simpa using hb
  | cons c t ih => simp [hasSeq, ih]

/-- A list occurs at the front of itself extended by anything. -/
theorem hasSeq_self_append (p t : List Char) : hasSeq (p ++ t) p = true := by
  cases p with
  | nil =>
    cases t with
    | nil => rfl
    | cons c r => simp [hasSeq, seqStarts]
  | cons a p2 =>
    have h1 : seqStarts (a :: p2) ((a :: p2) ++ t) = true := seqStarts_append _ _
    rw [List.cons_append] at h1
    simp [hasSeq, h1]

/-- Every member of a list of strings occurs inside their
semicolon-join. -/
theorem hasSeq_joinSemi (l : List String) (s : String) (h : s ∈ l) :
    hasSeq (joinSemi l).data s.data = true := by
  induction l with
  | nil => cases h
  | cons a rest ih =>
    cases rest with
    | nil =>
      have hs : s = a := by simpa using h
      subst hs
      have := hasSeq_self_append s.data []
      simpa [joinSemi] using this
    | cons b r2 =>
      rcases List.mem_cons.mp h with hsa | hmem
      · subst hsa
        have : hasSeq (s.data ++ ("; " ++ joinSemi (b :: r2)).data) s.data
            = true := hasSeq_self_append _ _
        simpa [joinSemi, String.data_append, List.append_assoc] using this
      · have hb : hasSeq (joinSemi (b :: r2)).data s.data = true := ih hmem
        have : hasSeq ((a ++ "; ").data ++ (joinSemi (b :: r2)).data) s.data
            = true := hasSeq_append_right _ _ _ hb
        simpa [joinSemi, String.data_append, List.append_assoc] using this

/-- C9: whenever the EXIF tags present among DateTime, DateTimeOriginal
and DateTimeDigitized carry more than one distinct value, the metadata
signal is suspicious, its reason contains "Inconsistent timestamps",
and 0.2 is added to its score accumulator (the returned score is the
accumulator clamped at 1). -/
theorem c9_timestamps (exif : List (String × String))
    (hts : 1 < (presentTimestamps exif).dedup.length) :
    (analyze_metadata exif).suspicious = true
    ∧ hasSeq (analyze_metadata exif).reason.data
        ("Inconsistent timestamps").data = true
    ∧ (analyze_metadata exif).score = min ((metaPre exif).2 + 1 / 5) 1 := by
  have hacc : metaAccum exif =
      ((metaPre exif).1 ++ ["Inconsistent timestamps"],
        (metaPre exif).2 + 1 / 5) := by
    unfold metaAccum
    rw [if_pos hts]
  have hne : ((metaPre exif).1 ++ ["Inconsistent timestamps"]).isEmpty = false := by
    simp
  refine ⟨?_, ?_, ?_⟩
  · simp [analyze_metadata, hacc, hne]
  · have hmem : "Inconsistent timestamps"
        ∈ (metaPre exif).1 ++ ["Inconsistent timestamps"] := by simp
    have hj := hasSeq_joinSemi _ _ hmem
    simpa [analyze_metadata, hacc, hne] using hj
  · simp [analyze_metadata, hacc, hne]

/-- C9 (witness): the timestamp theorem on an EXIF map holding two
differing timestamps. -/
theorem c9_timestamps_witness :
    1 < (presentTimestamps
        [("DateTime", "2023:01:01"), ("DateTimeOriginal", "2023:01:02")]).dedup.length
    ∧ ((analyze_metadata
          [("DateTime", "2023:01:01"), ("DateTimeOriginal", "2023:01:02")]).suspicious = true
      ∧ hasSeq (analyze_metadata
          [("DateTime", "2023:01:01"), ("DateTimeOriginal", "2023:01:02")]).reason.data
          ("Inconsistent timestamps").data = true
      ∧ (analyze_metadata
          [("DateTime", "2023:01:01"), ("DateTimeOriginal", "2023:01:02")]).score
          = min ((metaPre
              [("DateTime", "2023:01:01"), ("DateTimeOriginal", "2023:01:02")]).2 + 1 / 5) 1) :=
  ⟨by decide, c9_timestamps _ (by decide)⟩

end ScreenFraud

